import Mathlib

/-!
Verification development for the jager auto-claim agent
(src/jager_auto_claim.py).

The program is shallowly embedded:

* Checksum address normalization (`Web3.to_checksum_address`, EIP-55) is
  modelled by `toChecksumAddress`, parameterized over the Keccak-256 nibble
  stream `H` of the lower-cased address body; every theorem holds for every
  `H`, in particular for the real Keccak-256.  Only the fact that the
  capitalization pattern is a function of the lower-cased body matters to
  the program.
* The binary64 floating-point descaling performed by the polling loop
  (`pending / 10**18 / 1000000` in Python, two correctly rounded
  round-to-nearest-even divisions) is modelled exactly over `ℚ` by
  `roundDouble` and `descaleFloat`, valid for the nonnegative normal range
  (every uint256 reading is far below binary64 overflow).
* Remote interactions (node reads, signing, broadcasting) are modelled by
  explicit environments and event traces.
-/

set_option maxRecDepth 8000

namespace Jager

/-- Error taxonomy of the program: each constructor corresponds to one of
the distinct exceptions the source raises or propagates (invalid address in
checksum validation, the connection check of `__init__`, the missing-key
check and the missing-raw-data check of `_build_and_send_tx`, and remote
failures surfaced by web3 calls). -/
inductive Err where
  | invalidAddressError
  | connectionError
  | noCredentialError
  | noRawDataError
  | remoteReadError
  | submissionError
  | confirmationTimeoutError
deriving DecidableEq

/-- The 16 lower-case hexadecimal digit characters, built from their
character codes (codes 48-57 are the decimal digits, 97-102 the letters
a-f). -/
def lowerHexDigits : List Char :=
  (List.range 10).map (fun n => Char.ofNat (48 + n)) ++
    (List.range 6).map (fun n => Char.ofNat (97 + n))

/-- The 22 hexadecimal digit characters accepted in an address body: the
lower-case ones together with the upper-case letters A-F (codes 65-70). -/
def hexDigits : List Char :=
  lowerHexDigits ++ (List.range 6).map (fun n => Char.ofNat (65 + n))

/-- Lower-casing of a hexadecimal digit character (Python `str.lower`
restricted to the hex-digit domain, which is all validation admits). -/
def lowerHexChar : Char → Char
  | 'A' => 'a'
  | 'B' => 'b'
  | 'C' => 'c'
  | 'D' => 'd'
  | 'E' => 'e'
  | 'F' => 'f'
  | c => c

/-- Upper-casing of a hexadecimal digit character. -/
def upperHexChar : Char → Char
  | 'a' => 'A'
  | 'b' => 'B'
  | 'c' => 'C'
  | 'd' => 'D'
  | 'e' => 'E'
  | 'f' => 'F'
  | c => c

/-- EIP-55: a (lower-case) hex digit is upper-cased exactly when the
corresponding nibble of the hash is at least 8 (digits have no case, so
`upperHexChar` leaves them unchanged). -/
def checksumChar (n : ℕ) (c : Char) : Char :=
  if 8 ≤ n then upperHexChar c else c

/-- Apply the hash-derived capitalization pattern `ns` position-wise to the
lower-cased address body `cs`; a missing nibble (shorter `ns`) leaves the
character unchanged, so the output always has the length of `cs`. -/
def applyCaps : List ℕ → List Char → List Char
  | _, [] => []
  | [], c :: cs => c :: applyCaps [] cs
  | n :: ns, c :: cs => checksumChar n c :: applyCaps ns cs

/-- Validity of an address string: `0x` followed by exactly 40 hex digits
(the shape `Web3.to_checksum_address` accepts; anything else raises). -/
def isHexAddress (s : String) : Bool :=
  s.data.length == 42 && s.data.take 2 == ['0', 'x'] &&
    (s.data.drop 2).all (fun c => decide (c ∈ hexDigits))

/-- Model of `Web3.to_checksum_address` (EIP-55), parameterized by the
Keccak-256 nibble stream `H` of the lower-cased body: validate the shape,
lower-case the body, and re-capitalize it according to `H` of the
lower-cased body.  Raises (returns `Err.invalidAddressError`) on any
string that is not `0x` plus 40 hex digits. -/
def toChecksumAddress (H : List Char → List ℕ) (s : String) : Except Err String :=
  if isHexAddress s then
    Except.ok (String.mk ('0' :: 'x' ::
      applyCaps (H ((s.data.drop 2).map lowerHexChar)) ((s.data.drop 2).map lowerHexChar)))
  else
    Except.error Err.invalidAddressError

lemma mem_hexDigits_of_mem_lower : ∀ c ∈ lowerHexDigits, c ∈ hexDigits := by decide

lemma lowerHexChar_mem_of_mem_hexDigits :
    ∀ c ∈ hexDigits, lowerHexChar c ∈ lowerHexDigits := by decide

lemma upperHexChar_mem_of_mem_lower :
    ∀ c ∈ lowerHexDigits, upperHexChar c ∈ hexDigits := by decide

lemma lowerHexChar_upperHexChar : ∀ c ∈ lowerHexDigits, lowerHexChar (upperHexChar c) = c := by
  decide

lemma lowerHexChar_id_of_mem_lower : ∀ c ∈ lowerHexDigits, lowerHexChar c = c := by decide

lemma checksumChar_mem_hexDigits (n : ℕ) :
    ∀ c ∈ lowerHexDigits, checksumChar n c ∈ hexDigits := by
  intro c hc
  unfold checksumChar
  by_cases h : 8 ≤ n
  · rw [if_pos h]
    exact upperHexChar_mem_of_mem_lower c hc
  · rw [if_neg h]
    exact mem_hexDigits_of_mem_lower c hc

lemma lowerHexChar_checksumChar (n : ℕ) :
    ∀ c ∈ lowerHexDigits, lowerHexChar (checksumChar n c) = c := by
  intro c hc
  unfold checksumChar
  by_cases h : 8 ≤ n
  · rw [if_pos h]
    exact lowerHexChar_upperHexChar c hc
  · rw [if_neg h]
    exact lowerHexChar_id_of_mem_lower c hc

lemma applyCaps_length (ns : List ℕ) (cs : List Char) :
    (applyCaps ns cs).length = cs.length := by
  induction cs generalizing ns with
  | nil => cases ns <;> rfl
  | cons c cs ih =>
    cases ns with
    | nil => simpa [applyCaps] using ih []
    | cons n ns => simpa [applyCaps] using ih ns

lemma applyCaps_mem_hexDigits (ns : List ℕ) (cs : List Char)
    (h : ∀ c ∈ cs, c ∈ lowerHexDigits) :
    ∀ c ∈ applyCaps ns cs, c ∈ hexDigits := by
  induction cs generalizing ns with
  | nil => cases ns <;> simp [applyCaps]
  | cons c cs ih =>
    cases ns with
    | nil =>
      intro d hd
      rw [applyCaps] at hd
      rcases List.mem_cons.mp hd with rfl | hd
      · exact mem_hexDigits_of_mem_lower d (h d (List.mem_cons_self d cs))
      · exact ih [] (fun e he => h e (List.mem_cons_of_mem c he)) d hd
    | cons n ns =>
      intro d hd
      rw [applyCaps] at hd
      rcases List.mem_cons.mp hd with rfl | hd
      · exact checksumChar_mem_hexDigits n c (h c (List.mem_cons_self c cs))
      · exact ih ns (fun e he => h e (List.mem_cons_of_mem c he)) d hd

lemma map_lowerHexChar_applyCaps (ns : List ℕ) (cs : List Char)
    (h : ∀ c ∈ cs, c ∈ lowerHexDigits) :
    (applyCaps ns cs).map lowerHexChar = cs := by
  induction cs generalizing ns with
  | nil => cases ns <;> rfl
  | cons c cs ih =>
    have hc := h c (List.mem_cons_self c cs)
    have ht : ∀ e ∈ cs, e ∈ lowerHexDigits := fun e he => h e (List.mem_cons_of_mem c he)
    cases ns with
    | nil =>
      rw [applyCaps, List.map_cons, ih [] ht, lowerHexChar_id_of_mem_lower c hc]
    | cons n ns =>
      rw [applyCaps, List.map_cons, ih ns ht, lowerHexChar_checksumChar n c hc]

lemma isHexAddress_iff (s : String) :
    isHexAddress s = true ↔
      s.data.length = 42 ∧ s.data.take 2 = ['0', 'x'] ∧ ∀ c ∈ s.data.drop 2, c ∈ hexDigits := by
  unfold isHexAddress
  simp [List.all_eq_true, Bool.and_eq_true, and_assoc]

/-- The output of a successful checksum normalization is itself a valid
address whose lower-cased body equals the lower-cased body of the input;
hence normalizing it again reproduces it (shared helper for the
idempotence and case-insensitivity facts). -/
lemma toChecksumAddress_ok_fixedpoint (H : List Char → List ℕ) (s t : String)
    (h : toChecksumAddress H s = Except.ok t) :
    toChecksumAddress H t = Except.ok t := by
  unfold toChecksumAddress at h
  by_cases hv : isHexAddress s
  · rw [if_pos hv] at h
    obtain ⟨hlen, htake, hhex⟩ := (isHexAddress_iff s).mp hv
    have hlowmem : ∀ c ∈ (s.data.drop 2).map lowerHexChar, c ∈ lowerHexDigits := by
      intro c hc
      rcases List.mem_map.mp hc with ⟨d, hd, rfl⟩
      exact lowerHexChar_mem_of_mem_hexDigits d (hhex d hd)
    have ht : t = String.mk ('0' :: 'x' ::
        applyCaps (H ((s.data.drop 2).map lowerHexChar)) ((s.data.drop 2).map lowerHexChar)) :=
      (Except.ok.inj h).symm
    have htdata : t.data = '0' :: 'x' ::
        applyCaps (H ((s.data.drop 2).map lowerHexChar)) ((s.data.drop 2).map lowerHexChar) := by
      rw [ht]
    have hL : (applyCaps (H ((s.data.drop 2).map lowerHexChar))
        ((s.data.drop 2).map lowerHexChar)).length = 40 := by
      rw [applyCaps_length, List.length_map, List.length_drop, hlen]
    have hdrop2 : t.data.drop 2 =
        applyCaps (H ((s.data.drop 2).map lowerHexChar)) ((s.data.drop 2).map lowerHexChar) := by
      rw [htdata]
      rfl
    have hvalid : isHexAddress t = true := by
      refine (isHexAddress_iff t).mpr ⟨?_, ?_, ?_⟩
      · rw [htdata, List.length_cons, List.length_cons, hL]
      · rw [htdata]
        rfl
      · intro c hc
        rw [hdrop2] at hc
        exact applyCaps_mem_hexDigits _ _ hlowmem c hc
    unfold toChecksumAddress
    rw [if_pos hvalid, hdrop2, map_lowerHexChar_applyCaps _ _ hlowmem, ht]
  · rw [if_neg hv] at h
    cases h

/-- Two valid addresses with the same lower-cased body normalize to the
same checksum string. -/
lemma toChecksumAddress_lower_congr (H : List Char → List ℕ) (a b : String)
    (ha : isHexAddress a = true) (hb : isHexAddress b = true)
    (hl : (a.data.drop 2).map lowerHexChar = (b.data.drop 2).map lowerHexChar) :
    toChecksumAddress H a = toChecksumAddress H b := by
  unfold toChecksumAddress
  rw [if_pos ha, if_pos hb, hl]

/-- A nonnegative rational value represented as an explicit
numerator/denominator pair of natural numbers (denominator positive in
every pair the development constructs).  Plain natural-number arithmetic
makes every comparison evaluable by the kernel. -/
structure PQ where
  num : ℕ
  den : ℕ
deriving DecidableEq

/-- The natural number `n` as a pair. -/
def PQ.ofNat (n : ℕ) : PQ := ⟨n, 1⟩

/-- Strict order on pairs by cross multiplication. -/
def PQ.Lt (a b : PQ) : Prop := a.num * b.den < b.num * a.den

instance (a b : PQ) : Decidable (PQ.Lt a b) :=
  inferInstanceAs (Decidable (_ < _))

/-- Equality of the represented values, by cross multiplication. -/
def PQ.Equiv (a b : PQ) : Prop := a.num * b.den = b.num * a.den

instance (a b : PQ) : Decidable (PQ.Equiv a b) :=
  inferInstanceAs (Decidable (_ = _))

/-- Fuel-based floor of the base-2 logarithm of a natural number (0 for
inputs 0 and 1); the fuel 600 covers every number below `2 ^ 600`, far
beyond every quantity the program handles (readings are unsigned 256-bit
integers). -/
def natLog2F : ℕ → ℕ → ℕ
  | 0, _ => 0
  | fuel + 1, n => if n ≤ 1 then 0 else natLog2F fuel (n / 2) + 1

/-- Whether `2 ^ c ≤ n / d`, for an integer exponent `c` and a positive
fraction `n / d`, by cross multiplication. -/
def pow2LeFrac (c : ℤ) (n d : ℕ) : Bool :=
  match c with
  | Int.ofNat k => 2 ^ k * d ≤ n
  | Int.negSucc k => d ≤ n * 2 ^ (k + 1)

/-- Floor of the base-2 logarithm of the positive fraction `n / d`: the
unique `e` with `2 ^ e ≤ n / d < 2 ^ (e + 1)`.  The candidate from the
integer logarithms of `n` and `d` is off by at most one, which the final
comparison corrects. -/
def floorLog2Frac (n d : ℕ) : ℤ :=
  let c : ℤ := (natLog2F 600 n : ℤ) - (natLog2F 600 d : ℤ)
  if pow2LeFrac c n d then c else c - 1

/-- Round the nonnegative fraction `n / d` (with `d > 0`) to the nearest
natural number, ties to even (the IEEE 754 default rounding): `z` is the
floor, `n % d` the fractional part scaled by `d`, and the three branches
are fraction below, above, and exactly one half. -/
def roundTiesEvenPos (n d : ℕ) : ℕ :=
  let z := n / d
  let r := n % d
  if 2 * r < d then z
  else if d < 2 * r then z + 1
  else if z % 2 = 0 then z else z + 1

/-- Correct rounding of a nonnegative fraction to the nearest IEEE 754
binary64 value (round to nearest, ties to even), exactly, as a pair.
With `e = floorLog2Frac`, the scaled value `q / 2 ^ (e - 52)` lies in
`[2 ^ 52, 2 ^ 53)`, so rounding it to the nearest integer `m` and scaling
back yields the nearest binary64 value `m * 2 ^ (e - 52)` (a carry to
`m = 2 ^ 53` lands exactly on the base of the next binade).  Valid on the
normal finite range, which covers every value the program produces: the
descaled uint256 readings stay far below binary64 overflow and above the
subnormal threshold. -/
def roundDouble (q : PQ) : PQ :=
  if q.num = 0 then ⟨0, 1⟩
  else
    match floorLog2Frac q.num q.den - 52 with
    | Int.ofNat k => PQ.mk (roundTiesEvenPos q.num (q.den * 2 ^ k) * 2 ^ k) 1
    | Int.negSucc k => PQ.mk (roundTiesEvenPos (q.num * 2 ^ (k + 1)) q.den) (2 ^ (k + 1))

/-- The descaling the polling loop applies to a raw pending-reward reading
before comparing it with the threshold:
`pending = pending / 10**18 / 1000000` in Python, i.e. two successive
correctly rounded binary64 divisions (CPython rounds `int / int` true
division correctly to the nearest double, and `float / int` is an exact
int-to-float conversion followed by a correctly rounded IEEE division). -/
def descaleFloat (p : ℕ) : PQ :=
  let x1 := roundDouble (PQ.mk p (10 ^ 18))
  roundDouble (PQ.mk x1.num (x1.den * 10 ^ 6))

/-- The gate of the polling loop: `if pending > reward` on the descaled
binary64 reading, a strict comparison of the float against the integer
threshold (Python compares a float and an int exactly). -/
def pendingGate (reward p : ℕ) : Bool := decide (PQ.Lt (PQ.ofNat reward) (descaleFloat p))

/-- The raw-unit threshold corresponding to a configured threshold in
"M" units: the descaling divides by `10 ^ 18` and then by `10 ^ 6`. -/
def rawThreshold (reward : ℕ) : ℕ := reward * 10 ^ 24

/-- Full-precision integer comparison gating a claim, written from the
spec's words ("the threshold comparison must use integer values at full
precision"); the strict inequality matches the comparison operator the
source uses.  This is the refinement target that the loop's actual
float-based gate is compared against. -/
def gateSpecExact (reward p : ℕ) : Bool := decide (rawThreshold reward < p)

example : PQ.Equiv (descaleFloat (13784 * 10 ^ 24)) (PQ.ofNat 13784) := by decide
example : PQ.Equiv (descaleFloat (13784 * 10 ^ 24 + 1)) (PQ.ofNat 13784) := by decide
example : PQ.Equiv (descaleFloat (13784 * 10 ^ 24 - 1)) (PQ.ofNat 13784) := by decide
example : PQ.Equiv (descaleFloat (14 * 10 ^ 27)) (PQ.ofNat 14000) := by decide
example : PQ.Equiv (descaleFloat (13 * 10 ^ 27)) (PQ.ofNat 13000) := by decide
example : pendingGate 13784 14000000000 = false := by decide
example : pendingGate 13784 (14 * 10 ^ 27) = true := by decide
example : pendingGate 13784 (13784 * 10 ^ 24) = false := by decide
example : pendingGate 13784 (13784 * 10 ^ 24 + 1) = false := by decide

/-- Transaction receipt as the program consumes it: the web3 receipt's
transaction identifier (a byte string), inclusion status, and emitted log
data. -/
structure Receipt where
  transactionHash : List ℕ
  status : ℕ
  logsData : List (List ℕ)
deriving DecidableEq

/-- Lower-case hex digit of a nibble. -/
def hexDigitChar (n : ℕ) : Char :=
  if n < 10 then Char.ofNat (48 + n) else Char.ofNat (87 + n)

/-- `HexBytes.hex()` as the loop calls it on `receipt.transactionHash`:
the `0x`-prefixed lower-case hex rendering of the bytes. -/
def hexOfBytes (bs : List ℕ) : String :=
  String.mk ('0' :: 'x' ::
    bs.foldr (fun b acc => hexDigitChar (b / 16 % 16) :: hexDigitChar (b % 16) :: acc) [])

/-- The client object built by `JagerContractInteraction.__init__`: the
checksummed contract address, the RPC endpoint, and the optional signing
credential, held for the process lifetime. -/
structure Client where
  contract_address : String
  rpc_url : String
  private_key : Option String
deriving DecidableEq

/-- Environment of the startup connection check: whether
`web3.is_connected()` reports the endpoint as reachable. -/
structure ConnectEnv where
  connected : Bool
deriving DecidableEq

/-- `JagerContractInteraction.__init__` (src lines 8-29): checksum the
contract address first (raising on an invalid address), create the
provider and contract objects (no network traffic), then check the
connection and raise if the node is unreachable. -/
def jagerInit (H : List Char → List ℕ) (contract_address rpc_url : String)
    (private_key : Option String) (env : ConnectEnv) : Except Err Client :=
  match toChecksumAddress H contract_address with
  | Except.error e => Except.error e
  | Except.ok a =>
    if env.connected then Except.ok (Client.mk a rpc_url private_key)
    else Except.error Err.connectionError

/-- `get_pending_reward` (src lines 70-78): checksum the account address,
then issue the remote `pendingReward(address)` read with the checksummed
address; `chain` is the remote contract viewed as a function of the call
argument (it may fail with a remote-read error). -/
def get_pending_reward (H : List Char → List ℕ) (chain : String → Except Err ℕ)
    (account_address : String) : Except Err ℕ :=
  match toChecksumAddress H account_address with
  | Except.error e => Except.error e
  | Except.ok a => chain a

/-- Decoded `userInfo` tuple as `get_user_info` returns it. -/
structure UserInfo where
  amount : ℕ
  rewardDebt : ℕ
  pending : ℕ
  lockEndedTimestamp : ℕ
deriving DecidableEq

/-- `get_user_info` (src lines 80-94): checksum the account address, issue
the remote `userInfo(address)` read with the checksummed address, and
repackage the four components. -/
def get_user_info (H : List Char → List ℕ) (chain : String → Except Err (ℕ × ℕ × ℕ × ℕ))
    (account_address : String) : Except Err UserInfo :=
  match toChecksumAddress H account_address with
  | Except.error e => Except.error e
  | Except.ok a =>
    match chain a with
    | Except.error e => Except.error e
    | Except.ok r => Except.ok (UserInfo.mk r.1 r.2.1 r.2.2.1 r.2.2.2)

/-- The bound contract functions passed to `_build_and_send_tx` (the
state-changing entries of the ABI; `addLiquidity` takes only the token
amount, the native amount travels as the transaction value). -/
inductive ContractFn where
  | deposit (amount : ℕ)
  | withdraw (amount : ℕ)
  | claim
  | updatePool
  | addReward (amount : ℕ)
  | addLiquidity (tokenAmount : ℕ)
deriving DecidableEq

/-- The unsigned transaction `_build_and_send_tx` constructs: the explicit
parameters of the `build_transaction` dict plus the target contract and
call data that web3 fills in from the bound function. -/
structure UnsignedTx where
  fromAddr : String
  toAddr : String
  value : ℕ
  gas : ℕ
  gasPrice : ℕ
  nonce : ℕ
  data : ContractFn
deriving DecidableEq

/-- Environment of one `_build_and_send_tx` call: the signer address
derived from the key, the node's answers to the nonce and gas-price
queries, the attribute list (in `dir()` order) of the signed-transaction
object the signing library returns, and the node's responses to the
broadcast and the receipt wait. -/
structure TxEnv where
  accountAddress : String
  nonce : ℕ
  gasPrice : ℕ
  signedAttrs : List (String × List ℕ)
  sendResult : Except Err (List ℕ)
  receiptResult : Except Err Receipt

/-- Network/side-effect trace of a `_build_and_send_tx` call. -/
inductive TxEvent where
  | getNonce
  | getGasPrice
  | buildTx (tx : UnsignedTx)
  | signTx (tx : UnsignedTx)
  | broadcast (raw : List ℕ)
  | waitForReceipt
deriving DecidableEq

/-- Python truthiness of the optional key string:
`if not self.private_key` fires on `None` and on the empty string. -/
def credTruthy : Option String → Bool
  | none => false
  | some s => !(s.isEmpty)

/-- ASCII lower-casing of one character (`str.lower` on attribute names). -/
def asciiLowerChar (c : Char) : Char :=
  if 'A' ≤ c ∧ c ≤ 'Z' then Char.ofNat (c.toNat + 32) else c

/-- Whether the character list contains the substring `raw`
(`'raw' in attr_name.lower()` after lower-casing). -/
def hasRawSub : List Char → Bool
  | 'r' :: 'a' :: 'w' :: _ => true
  | _ :: rest => hasRawSub rest
  | [] => false

/-- `attr_name.startswith('_')`. -/
def startsWithUnderscore (s : String) : Bool :=
  match s.data with
  | '_' :: _ => true
  | _ => false

/-- The raw-payload probing of `_build_and_send_tx` (src lines 126-136):
try the `rawTransaction` attribute, then `raw_transaction`, then scan
`dir(signed_tx)` for the first non-underscore attribute whose lower-cased
name contains `raw`. -/
def findRawAttr (attrs : List (String × List ℕ)) : Option (List ℕ) :=
  match attrs.find? (fun a => a.1 == "rawTransaction") with
  | some a => some a.2
  | none =>
    match attrs.find? (fun a => a.1 == "raw_transaction") with
    | some a => some a.2
    | none =>
      (attrs.find? (fun a =>
        hasRawSub (asciiLowerChar <$> a.1.data) && !(startsWithUnderscore a.1))).map
        (fun a => a.2)

/-- `_build_and_send_tx` (src lines 96-147): fail immediately when no key
is configured; otherwise query the nonce, query the gas price, build the
unsigned transaction (fixed gas budget 2000000, the queried gas price and
nonce, the target contract, the bound function's call data, and the value
for payable calls), sign it, locate the raw payload of the signed object,
fail without broadcasting when none is found (or it is empty), broadcast
it exactly once, wait for the receipt, and return the receipt.  The
result pairs the event trace with the returned receipt or the raised
error. -/
def build_and_send_tx (contractAddress : String) (private_key : Option String)
    (env : TxEnv) (function : ContractFn) (value : ℕ) :
    List TxEvent × Except Err Receipt :=
  if credTruthy private_key = false then ([], Except.error Err.noCredentialError)
  else
    let tx : UnsignedTx :=
      UnsignedTx.mk env.accountAddress contractAddress value 2000000 env.gasPrice env.nonce
        function
    let evs := [TxEvent.getNonce, TxEvent.getGasPrice, TxEvent.buildTx tx, TxEvent.signTx tx]
    match findRawAttr env.signedAttrs with
    | none => (evs, Except.error Err.noRawDataError)
    | some raw =>
      if raw = [] then (evs, Except.error Err.noRawDataError)
      else
        match env.sendResult with
        | Except.error e => (evs ++ [TxEvent.broadcast raw], Except.error e)
        | Except.ok _h =>
          match env.receiptResult with
          | Except.error e =>
            (evs ++ [TxEvent.broadcast raw, TxEvent.waitForReceipt], Except.error e)
          | Except.ok receipt =>
            (evs ++ [TxEvent.broadcast raw, TxEvent.waitForReceipt], Except.ok receipt)

/-- `add_liquidity` (src lines 149-158). -/
def add_liquidity (c : Client) (env : TxEnv) (token_amount bnb_amount : ℕ) :
    List TxEvent × Except Err Receipt :=
  build_and_send_tx c.contract_address c.private_key env
    (ContractFn.addLiquidity token_amount) bnb_amount

/-- `add_reward` (src lines 160-168). -/
def add_reward (c : Client) (env : TxEnv) (amount : ℕ) :
    List TxEvent × Except Err Receipt :=
  build_and_send_tx c.contract_address c.private_key env (ContractFn.addReward amount) 0

/-- `claim` (src lines 170-173). -/
def claim (c : Client) (env : TxEnv) : List TxEvent × Except Err Receipt :=
  build_and_send_tx c.contract_address c.private_key env ContractFn.claim 0

/-- `deposit` (src lines 175-183). -/
def deposit (c : Client) (env : TxEnv) (amount : ℕ) :
    List TxEvent × Except Err Receipt :=
  build_and_send_tx c.contract_address c.private_key env (ContractFn.deposit amount) 0

/-- `update_pool` (src lines 185-188). -/
def update_pool (c : Client) (env : TxEnv) : List TxEvent × Except Err Receipt :=
  build_and_send_tx c.contract_address c.private_key env ContractFn.updatePool 0

/-- `withdraw` (src lines 190-198). -/
def withdraw (c : Client) (env : TxEnv) (amount : ℕ) :
    List TxEvent × Except Err Receipt :=
  build_and_send_tx c.contract_address c.private_key env (ContractFn.withdraw amount) 0

deriving instance DecidableEq for Except

/-- Per-iteration environment of the polling loop: the results of the
remote interactions one iteration may perform (the LP-token read, the
pending-reward read for the configured account, and the whole claim
operation abstracted to its outcome). -/
structure IterEnv where
  lpToken : Except Err String
  pending : Except Err ℕ
  claimResult : Except Err Receipt
deriving DecidableEq

/-- Observable trace of one loop iteration: remote calls, printed lines,
and the sleep. -/
inductive LoopEvent where
  | readLpToken
  | loggedLpToken (address : String)
  | readPending
  | loggedPending (value : PQ)
  | loggedClaimStart
  | claimCall
  | loggedTxHash (hex : String)
  | loggedError (e : Err)
  | loggedWait
  | slept (seconds : ℕ)
deriving DecidableEq

/-- The body of one `while True` iteration inside the `try` (src lines
220-235): read and print the LP-token address, call `get_pending_reward`
for the configured account, descale the reading and print it, and when
the strict float gate fires, print the start message, invoke `claim`, and
print the receipt's transaction hash.  The result pairs the emitted
events with the exception escaping the body, if any. -/
def tickBody (reward : ℕ) (env : IterEnv) : List LoopEvent × Option Err :=
  match env.lpToken with
  | Except.error e => ([LoopEvent.readLpToken], some e)
  | Except.ok lp =>
    match env.pending with
    | Except.error e =>
      ([LoopEvent.readLpToken, LoopEvent.loggedLpToken lp, LoopEvent.readPending], some e)
    | Except.ok p =>
      let base := [LoopEvent.readLpToken, LoopEvent.loggedLpToken lp, LoopEvent.readPending,
        LoopEvent.loggedPending (descaleFloat p)]
      if pendingGate reward p then
        match env.claimResult with
        | Except.error e =>
          (base ++ [LoopEvent.loggedClaimStart, LoopEvent.claimCall], some e)
        | Except.ok r =>
          (base ++ [LoopEvent.loggedClaimStart, LoopEvent.claimCall,
            LoopEvent.loggedTxHash (hexOfBytes r.transactionHash)], none)
      else (base, none)

/-- One full iteration (src lines 218-241): the `try` body, the
`except Exception` handler that logs and swallows whatever the body
raised, and the unconditional wait message and 60-second sleep. -/
def tick (reward : ℕ) (env : IterEnv) : List LoopEvent :=
  (match (tickBody reward env).2 with
   | some e => (tickBody reward env).1 ++ [LoopEvent.loggedError e]
   | none => (tickBody reward env).1) ++ [LoopEvent.loggedWait, LoopEvent.slept 60]

/-- The loop over a finite prefix of iteration environments: every
iteration's exception is handled inside it, so each environment gives
rise to exactly one complete iteration. -/
def runLoop (reward : ℕ) (envs : List IterEnv) : List LoopEvent :=
  match envs with
  | [] => []
  | e :: rest => tick reward e ++ runLoop reward rest

/-- Recognizer for the claim invocation event. -/
def isClaimCall : LoopEvent → Bool
  | LoopEvent.claimCall => true
  | _ => false

/-- Number of claim invocations in a trace. -/
def claimCount (evs : List LoopEvent) : ℕ := evs.countP isClaimCall

/-- Recognizer for the pending-reward read event. -/
def isReadPending : LoopEvent → Bool
  | LoopEvent.readPending => true
  | _ => false

/-- Recognizer for the broadcast event of a transaction trace. -/
def isBroadcast : TxEvent → Bool
  | TxEvent.broadcast _ => true
  | _ => false

/-- A concrete receipt used by concrete scenarios. -/
def sampleReceipt : Receipt := Receipt.mk [171, 205] 1 []

/-- A successful iteration environment with reading `p`. -/
def okEnv (p : ℕ) : IterEnv :=
  IterEnv.mk (Except.ok ("LP")) (Except.ok p) (Except.ok sampleReceipt)

example : claimCount (tick 13784 (okEnv (14 * 10 ^ 27))) = 1 := by decide
example : claimCount (tick 13784 (okEnv (13784 * 10 ^ 24))) = 0 := by decide
example : LoopEvent.loggedTxHash (hexOfBytes sampleReceipt.transactionHash) ∈
    tick 13784 (okEnv (14 * 10 ^ 27)) := by decide
example : hexOfBytes sampleReceipt.transactionHash = "0xabcd" := by decide

/-- The normalized checksum string of an address. -/
def checksumStr (H : List Char → List ℕ) (s : String) : String :=
  String.mk ('0' :: 'x' ::
    applyCaps (H ((s.data.drop 2).map lowerHexChar)) ((s.data.drop 2).map lowerHexChar))

lemma toChecksumAddress_ok_of_valid (H : List Char → List ℕ) (s : String)
    (hv : isHexAddress s = true) :
    toChecksumAddress H s = Except.ok (checksumStr H s) := by
  unfold toChecksumAddress checksumStr
  rw [if_pos hv]

lemma toChecksumAddress_error_of_invalid (H : List Char → List ℕ) (s : String)
    (hv : isHexAddress s = false) :
    toChecksumAddress H s = Except.error Err.invalidAddressError := by
  unfold toChecksumAddress
  rw [hv]
  rfl

/-- C8 (confirmed): checksum normalization is idempotent.  For every hash
function and every input address, feeding the result of a normalization
back into normalization yields the same result as normalizing once: a
successfully normalized address is a fixed point, and an invalid address
fails both times with the same error. -/
theorem C8_checksum_idempotent (H : List Char → List ℕ) (s : String) :
    (toChecksumAddress H s).bind (toChecksumAddress H) = toChecksumAddress H s := by
  cases h : toChecksumAddress H s with
  | error e => rfl
  | ok t =>
    have := toChecksumAddress_ok_fixedpoint H s t h
    simpa [Except.bind] using this

/-- C7 (confirmed): client construction validates the contract address
before anything else (an invalid address aborts regardless of the
endpoint), fails with the connection error whenever the endpoint is
unreachable, and on success returns a client holding the case-normalized
checksum form of the address, a fixed point of normalization. -/
theorem C7_connect_validates (H : List Char → List ℕ) (addr rpc : String)
    (cred : Option String) (env : ConnectEnv) :
    (isHexAddress addr = false →
      jagerInit H addr rpc cred env = Except.error Err.invalidAddressError) ∧
    (isHexAddress addr = true → env.connected = false →
      jagerInit H addr rpc cred env = Except.error Err.connectionError) ∧
    (isHexAddress addr = true → env.connected = true →
      jagerInit H addr rpc cred env =
        Except.ok (Client.mk (checksumStr H addr) rpc cred) ∧
      toChecksumAddress H (checksumStr H addr) = Except.ok (checksumStr H addr)) := by
  refine ⟨?_, ?_, ?_⟩
  · intro hinv
    unfold jagerInit
    rw [toChecksumAddress_error_of_invalid H addr hinv]
  · intro hv hconn
    unfold jagerInit
    rw [toChecksumAddress_ok_of_valid H addr hv, hconn]
    rfl
  · intro hv hconn
    constructor
    · unfold jagerInit
      rw [toChecksumAddress_ok_of_valid H addr hv, hconn]
      rfl
    · exact toChecksumAddress_ok_fixedpoint H addr (checksumStr H addr)
        (toChecksumAddress_ok_of_valid H addr hv)

/-- C7 witness: at the source's configured contract address, with no
credential, an unreachable endpoint makes construction fail with the
connection error, and a reachable endpoint yields the client holding the
normalized address. -/
theorem C7_connect_validates_witness :
    jagerInit (fun _ => []) ("0x5C08E98F14e462B75C9b3566128f75915B78aee7") ("rpc")
        none (ConnectEnv.mk false) = Except.error Err.connectionError ∧
    jagerInit (fun _ => []) ("0x5C08E98F14e462B75C9b3566128f75915B78aee7") ("rpc")
        none (ConnectEnv.mk true) =
      Except.ok (Client.mk
        (checksumStr (fun _ => []) ("0x5C08E98F14e462B75C9b3566128f75915B78aee7"))
        ("rpc") none) :=
  ⟨(C7_connect_validates (fun _ => []) ("0x5C08E98F14e462B75C9b3566128f75915B78aee7")
      ("rpc") none (ConnectEnv.mk false)).2.1 (by decide) rfl,
   ((C7_connect_validates (fun _ => []) ("0x5C08E98F14e462B75C9b3566128f75915B78aee7")
      ("rpc") none (ConnectEnv.mk true)).2.2 (by decide) rfl).1⟩

/-- C10 (confirmed): the account-taking read accessors checksum the
account address before issuing the remote read: for any two
capitalizations of the same valid address, `get_pending_reward` and
`get_user_info` issue the same call and return the same result, namely
the remote response for the checksum form. -/
theorem C10_reads_normalize (H : List Char → List ℕ)
    (chainP : String → Except Err ℕ) (chainU : String → Except Err (ℕ × ℕ × ℕ × ℕ))
    (a b : String) (ha : isHexAddress a = true) (hb : isHexAddress b = true)
    (hl : (a.data.drop 2).map lowerHexChar = (b.data.drop 2).map lowerHexChar) :
    get_pending_reward H chainP a = chainP (checksumStr H a) ∧
    get_pending_reward H chainP b = chainP (checksumStr H a) ∧
    get_pending_reward H chainP a = get_pending_reward H chainP b ∧
    get_user_info H chainU a = get_user_info H chainU b := by
  have hcs : checksumStr H b = checksumStr H a := by
    unfold checksumStr
    rw [hl]
  refine ⟨?_, ?_, ?_, ?_⟩
  · unfold get_pending_reward
    rw [toChecksumAddress_ok_of_valid H a ha]
  · unfold get_pending_reward
    rw [toChecksumAddress_ok_of_valid H b hb, hcs]
  · unfold get_pending_reward
    rw [toChecksumAddress_ok_of_valid H a ha, toChecksumAddress_ok_of_valid H b hb, hcs]
  · unfold get_user_info
    rw [toChecksumAddress_ok_of_valid H a ha, toChecksumAddress_ok_of_valid H b hb, hcs]

/-- C10 witness: the source's contract address in its checksummed and
all-lower-case spellings yield the same pending-reward read result. -/
theorem C10_reads_normalize_witness :
    get_pending_reward (fun _ => []) (fun _ => Except.ok 5)
        ("0x5C08E98F14e462B75C9b3566128f75915B78aee7") =
      get_pending_reward (fun _ => []) (fun _ => Except.ok 5)
        ("0x5c08e98f14e462b75c9b3566128f75915b78aee7") :=
  (C10_reads_normalize (fun _ => []) (fun _ => Except.ok 5)
    (fun _ => Except.ok (1, 2, 3, 4))
    ("0x5C08E98F14e462B75C9b3566128f75915B78aee7")
    ("0x5c08e98f14e462b75c9b3566128f75915b78aee7")
    (by decide) (by decide) (by decide)).2.2.1

/-- A client without a configured signing credential. -/
def sampleClientNoKey : Client := Client.mk ("0xC") ("rpc") none

/-- A client with a configured signing credential. -/
def sampleClientKey : Client := Client.mk ("0xC") ("rpc") (some ("k"))

/-- A well-behaved transaction environment: the signed object exposes
`rawTransaction`, the broadcast is accepted, and a receipt arrives. -/
def sampleTxEnv : TxEnv :=
  TxEnv.mk ("0xSigner") 7 5000000000 [("rawTransaction", [1, 2, 3])] (Except.ok [9])
    (Except.ok sampleReceipt)

/-- A transaction environment whose signed object exposes no raw-payload
attribute at all. -/
def sampleNoRawTxEnv : TxEnv :=
  TxEnv.mk ("0xSigner") 7 5000000000 [("_sig", [1]), ("hash", [2]), ("v", [3])]
    (Except.ok [9]) (Except.ok sampleReceipt)

/-- C3 (confirmed): without a configured credential every state-changing
operation fails with the no-credential error before doing anything: the
event trace is empty, so no nonce query, no gas-price query and no
broadcast ever happen. -/
theorem C3_no_credential_no_network (c : Client) (env : TxEnv)
    (hc : c.private_key = none) :
    (∀ amount, deposit c env amount = ([], Except.error Err.noCredentialError)) ∧
    (∀ amount, withdraw c env amount = ([], Except.error Err.noCredentialError)) ∧
    claim c env = ([], Except.error Err.noCredentialError) ∧
    update_pool c env = ([], Except.error Err.noCredentialError) ∧
    (∀ amount, add_reward c env amount = ([], Except.error Err.noCredentialError)) ∧
    (∀ token_amount bnb_amount, add_liquidity c env token_amount bnb_amount =
      ([], Except.error Err.noCredentialError)) := by
  unfold deposit withdraw claim update_pool add_reward add_liquidity build_and_send_tx
  rw [hc]
  simp [credTruthy]

/-- C3 witness: the credential-less client fails `claim` and `deposit`
with the no-credential error and an empty trace. -/
theorem C3_no_credential_no_network_witness :
    claim sampleClientNoKey sampleTxEnv = ([], Except.error Err.noCredentialError) ∧
    deposit sampleClientNoKey sampleTxEnv 5 = ([], Except.error Err.noCredentialError) :=
  ⟨(C3_no_credential_no_network sampleClientNoKey sampleTxEnv rfl).2.2.1,
   (C3_no_credential_no_network sampleClientNoKey sampleTxEnv rfl).1 5⟩

/-- C6 (confirmed): with a configured credential, on the success path
(a nonempty raw payload is found on the signed object, the broadcast is
accepted, a receipt arrives), `_build_and_send_tx` performs exactly the
steps nonce query, gas-price query, transaction construction (nonce,
fixed gas budget 2000000, queried gas price, target contract, call data,
value), signing, a single broadcast, and the receipt wait, in this order,
and returns the awaited receipt; the trace holds exactly one broadcast
(no implicit retry).  All six public operations are instances of this
procedure. -/
theorem C6_tx_procedure (c : Client) (env : TxEnv) (f : ContractFn) (value : ℕ)
    (raw txh : List ℕ) (receipt : Receipt)
    (hcred : credTruthy c.private_key = true)
    (hraw : findRawAttr env.signedAttrs = some raw) (hne : raw ≠ [])
    (hsend : env.sendResult = Except.ok txh)
    (hrec : env.receiptResult = Except.ok receipt) :
    build_and_send_tx c.contract_address c.private_key env f value =
      ([TxEvent.getNonce, TxEvent.getGasPrice,
        TxEvent.buildTx (UnsignedTx.mk env.accountAddress c.contract_address value 2000000
          env.gasPrice env.nonce f),
        TxEvent.signTx (UnsignedTx.mk env.accountAddress c.contract_address value 2000000
          env.gasPrice env.nonce f),
        TxEvent.broadcast raw, TxEvent.waitForReceipt], Except.ok receipt) ∧
    (build_and_send_tx c.contract_address c.private_key env f value).1.countP isBroadcast
      = 1 ∧
    (∀ amount, deposit c env amount =
      build_and_send_tx c.contract_address c.private_key env (ContractFn.deposit amount) 0) ∧
    (∀ amount, withdraw c env amount =
      build_and_send_tx c.contract_address c.private_key env (ContractFn.withdraw amount) 0) ∧
    claim c env = build_and_send_tx c.contract_address c.private_key env ContractFn.claim 0 ∧
    update_pool c env =
      build_and_send_tx c.contract_address c.private_key env ContractFn.updatePool 0 ∧
    (∀ amount, add_reward c env amount =
      build_and_send_tx c.contract_address c.private_key env (ContractFn.addReward amount) 0) ∧
    (∀ token_amount bnb_amount, add_liquidity c env token_amount bnb_amount =
      build_and_send_tx c.contract_address c.private_key env
        (ContractFn.addLiquidity token_amount) bnb_amount) := by
  have hmain : build_and_send_tx c.contract_address c.private_key env f value =
      ([TxEvent.getNonce, TxEvent.getGasPrice,
        TxEvent.buildTx (UnsignedTx.mk env.accountAddress c.contract_address value 2000000
          env.gasPrice env.nonce f),
        TxEvent.signTx (UnsignedTx.mk env.accountAddress c.contract_address value 2000000
          env.gasPrice env.nonce f),
        TxEvent.broadcast raw, TxEvent.waitForReceipt], Except.ok receipt) := by
    unfold build_and_send_tx
    rw [hraw, hsend, hrec]
    simp [hcred, hne]
  refine ⟨hmain, ?_, fun amount => rfl, fun amount => rfl, rfl, rfl, fun amount => rfl,
    fun token_amount bnb_amount => rfl⟩
  rw [hmain]
  simp [isBroadcast, List.countP_cons, List.countP_nil]

/-- C6 witness: the keyed client's `claim` against the well-behaved
environment produces exactly the six-step trace and returns the awaited
receipt. -/
theorem C6_tx_procedure_witness :
    build_and_send_tx sampleClientKey.contract_address sampleClientKey.private_key
      sampleTxEnv ContractFn.claim 0 =
      ([TxEvent.getNonce, TxEvent.getGasPrice,
        TxEvent.buildTx (UnsignedTx.mk sampleTxEnv.accountAddress
          sampleClientKey.contract_address 0 2000000 sampleTxEnv.gasPrice sampleTxEnv.nonce
          ContractFn.claim),
        TxEvent.signTx (UnsignedTx.mk sampleTxEnv.accountAddress
          sampleClientKey.contract_address 0 2000000 sampleTxEnv.gasPrice sampleTxEnv.nonce
          ContractFn.claim),
        TxEvent.broadcast [1, 2, 3], TxEvent.waitForReceipt], Except.ok sampleReceipt) :=
  (C6_tx_procedure sampleClientKey sampleTxEnv ContractFn.claim 0 [1, 2, 3] [9]
    sampleReceipt (by decide) (by decide) (by decide) rfl rfl).1

/-- If every attribute of the signed object either starts with an
underscore or has no `raw` in its lower-cased name, then the raw-payload
probe finds nothing (in particular neither `rawTransaction` nor
`raw_transaction` can be present). -/
lemma findRawAttr_eq_none (attrs : List (String × List ℕ))
    (h : ∀ a ∈ attrs, startsWithUnderscore a.1 = true ∨
      hasRawSub (asciiLowerChar <$> a.1.data) = false) :
    findRawAttr attrs = none := by
  have h1 : attrs.find? (fun a => a.1 == "rawTransaction") = none := by
    rw [List.find?_eq_none]
    intro a ha hbeq
    have he : a.1 = "rawTransaction" := eq_of_beq hbeq
    rcases h a ha with hu | hr
    · rw [he] at hu
      exact absurd hu (by decide)
    · rw [he] at hr
      exact absurd hr (by decide)
  have h2 : attrs.find? (fun a => a.1 == "raw_transaction") = none := by
    rw [List.find?_eq_none]
    intro a ha hbeq
    have he : a.1 = "raw_transaction" := eq_of_beq hbeq
    rcases h a ha with hu | hr
    · rw [he] at hu
      exact absurd hu (by decide)
    · rw [he] at hr
      exact absurd hr (by decide)
  have h3 : attrs.find? (fun a =>
      hasRawSub (asciiLowerChar <$> a.1.data) && !(startsWithUnderscore a.1)) = none := by
    rw [List.find?_eq_none]
    intro a ha hband
    rcases h a ha with hu | hr
    · rw [Bool.and_eq_true] at hband
      rw [hu] at hband
      simp at hband
    · rw [Bool.and_eq_true] at hband
      rw [hr] at hband
      simp at hband
  unfold findRawAttr
  rw [h1, h2, h3]
  rfl

/-- C9 (confirmed): when the signed object exposes no raw-payload
attribute (no `rawTransaction`, no `raw_transaction`, and no
non-underscore attribute whose lower-cased name contains `raw`), the
state-changing operation fails with the no-raw-data error after signing,
and its trace holds no broadcast: nothing is ever sent to the node in
that call. -/
theorem C9_no_raw_no_broadcast (c : Client) (env : TxEnv) (f : ContractFn) (value : ℕ)
    (hcred : credTruthy c.private_key = true)
    (hattrs : ∀ a ∈ env.signedAttrs, startsWithUnderscore a.1 = true ∨
      hasRawSub (asciiLowerChar <$> a.1.data) = false) :
    build_and_send_tx c.contract_address c.private_key env f value =
      ([TxEvent.getNonce, TxEvent.getGasPrice,
        TxEvent.buildTx (UnsignedTx.mk env.accountAddress c.contract_address value 2000000
          env.gasPrice env.nonce f),
        TxEvent.signTx (UnsignedTx.mk env.accountAddress c.contract_address value 2000000
          env.gasPrice env.nonce f)], Except.error Err.noRawDataError) ∧
    (build_and_send_tx c.contract_address c.private_key env f value).1.countP isBroadcast
      = 0 := by
  have hnone := findRawAttr_eq_none env.signedAttrs hattrs
  have hmain : build_and_send_tx c.contract_address c.private_key env f value =
      ([TxEvent.getNonce, TxEvent.getGasPrice,
        TxEvent.buildTx (UnsignedTx.mk env.accountAddress c.contract_address value 2000000
          env.gasPrice env.nonce f),
        TxEvent.signTx (UnsignedTx.mk env.accountAddress c.contract_address value 2000000
          env.gasPrice env.nonce f)], Except.error Err.noRawDataError) := by
    unfold build_and_send_tx
    rw [hnone]
    simp [hcred]
  refine ⟨hmain, ?_⟩
  rw [hmain]
  simp [isBroadcast, List.countP_cons, List.countP_nil]

/-- C9 witness: against the raw-less environment, the keyed client's
operation fails with the no-raw-data error (hence, by the theorem, with
no broadcast in its trace). -/
theorem C9_no_raw_no_broadcast_witness :
    build_and_send_tx sampleClientKey.contract_address sampleClientKey.private_key
      sampleNoRawTxEnv ContractFn.claim 0 =
      ([TxEvent.getNonce, TxEvent.getGasPrice,
        TxEvent.buildTx (UnsignedTx.mk sampleNoRawTxEnv.accountAddress
          sampleClientKey.contract_address 0 2000000 sampleNoRawTxEnv.gasPrice
          sampleNoRawTxEnv.nonce ContractFn.claim),
        TxEvent.signTx (UnsignedTx.mk sampleNoRawTxEnv.accountAddress
          sampleClientKey.contract_address 0 2000000 sampleNoRawTxEnv.gasPrice
          sampleNoRawTxEnv.nonce ContractFn.claim)], Except.error Err.noRawDataError) :=
  (C9_no_raw_no_broadcast sampleClientKey sampleNoRawTxEnv ContractFn.claim 0
    (by decide) (by decide)).1

/-- On a tick whose two reads succeed, the claim count equals one exactly
when the strict float gate fires (shared helper for the gate claims). -/
lemma tick_claimCount_one_iff (reward p : ℕ) (env : IterEnv) (lp : String)
    (hlp : env.lpToken = Except.ok lp) (hp : env.pending = Except.ok p) :
    claimCount (tick reward env) = 1 ↔ PQ.Lt (PQ.ofNat reward) (descaleFloat p) := by
  have hgate : pendingGate reward p = true ↔ PQ.Lt (PQ.ofNat reward) (descaleFloat p) := by
    unfold pendingGate
    exact decide_eq_true_iff
  rw [← hgate]
  unfold claimCount tick tickBody
  rw [hlp, hp]
  by_cases hg : pendingGate reward p
  · cases hc : env.claimResult with
    | error e =>
      simp [hg, List.countP_cons, List.countP_nil, isClaimCall]
    | ok r =>
      simp [hg, List.countP_cons, List.countP_nil, isClaimCall]
  · simp [hg, List.countP_cons, List.countP_nil, isClaimCall]

/-- Complement of `tick_claimCount_one_iff`: the claim count is zero
exactly when the strict float gate does not fire. -/
lemma tick_claimCount_zero_iff (reward p : ℕ) (env : IterEnv) (lp : String)
    (hlp : env.lpToken = Except.ok lp) (hp : env.pending = Except.ok p) :
    claimCount (tick reward env) = 0 ↔ ¬ PQ.Lt (PQ.ofNat reward) (descaleFloat p) := by
  have hgate : pendingGate reward p = true ↔ PQ.Lt (PQ.ofNat reward) (descaleFloat p) := by
    unfold pendingGate
    exact decide_eq_true_iff
  rw [← hgate]
  unfold claimCount tick tickBody
  rw [hlp, hp]
  by_cases hg : pendingGate reward p
  · cases hc : env.claimResult with
    | error e =>
      simp [hg, List.countP_cons, List.countP_nil, isClaimCall]
    | ok r =>
      simp [hg, List.countP_cons, List.countP_nil, isClaimCall]
  · simp [hg, List.countP_cons, List.countP_nil, isClaimCall]

/-- C1 (corrected to the code's strict float gate): on a tick whose reads
succeed with reading `p`, the loop invokes the claim operation exactly
once when the binary64-descaled reading strictly exceeds the configured
threshold and not at all otherwise; in particular, with the source's
threshold 13784, a reading equal to the raw threshold `13784 * 10 ^ 24`
and a reading one raw unit below it never trigger. -/
theorem C1_gate_strict_float (reward p : ℕ) (env : IterEnv) (lp : String)
    (hlp : env.lpToken = Except.ok lp) (hp : env.pending = Except.ok p) :
    (claimCount (tick reward env) = 1 ↔ PQ.Lt (PQ.ofNat reward) (descaleFloat p)) ∧
    (claimCount (tick reward env) = 0 ↔ ¬ PQ.Lt (PQ.ofNat reward) (descaleFloat p)) ∧
    claimCount (tick 13784 (okEnv (13784 * 10 ^ 24))) = 0 ∧
    claimCount (tick 13784 (okEnv (13784 * 10 ^ 24 - 1))) = 0 :=
  ⟨tick_claimCount_one_iff reward p env lp hlp hp,
   tick_claimCount_zero_iff reward p env lp hlp hp,
   by decide, by decide⟩

/-- C1 witness: with threshold 13784, a successful tick reading
`14000 * 10 ^ 24` issues exactly one claim. -/
theorem C1_gate_strict_float_witness :
    claimCount (tick 13784 (okEnv (14 * 10 ^ 27))) = 1 :=
  (C1_gate_strict_float 13784 (14 * 10 ^ 27) (okEnv (14 * 10 ^ 27)) ("LP")
    rfl rfl).1.mpr (by decide)

/-- C1 counterexample: with the source's threshold 13784, a successful
tick whose pending reading is exactly the raw threshold `13784 * 10 ^ 24`
(descaling exactly to the threshold value 13784) issues no claim — the
gate is strict, so a reading equal to the threshold does not trigger. -/
theorem C1_counterexample :
    claimCount (tick 13784 (okEnv (13784 * 10 ^ 24))) = 0 ∧
    PQ.Equiv (descaleFloat (13784 * 10 ^ 24)) (PQ.ofNat 13784) := by decide

/-- C2 (corrected): readings cross the boundary as unsigned integers
(nonnegative by construction), but the gating comparison is not performed
on full-precision integers: the tick's gate is the strict comparison of
the binary64-descaled reading against the threshold, and there is a
reading strictly above the raw threshold in exact integer arithmetic
whose tick nevertheless issues no claim. -/
theorem C2_gate_not_full_precision (reward p : ℕ) (env : IterEnv) (lp : String)
    (hlp : env.lpToken = Except.ok lp) (hp : env.pending = Except.ok p) :
    (claimCount (tick reward env) = 1 ↔ PQ.Lt (PQ.ofNat reward) (descaleFloat p)) ∧
    (∃ q : ℕ, gateSpecExact 13784 q = true ∧ claimCount (tick 13784 (okEnv q)) = 0) :=
  ⟨tick_claimCount_one_iff reward p env lp hlp hp,
   ⟨13784 * 10 ^ 24 + 1, by decide, by decide⟩⟩

/-- C2 witness: with threshold 13784, a successful tick reading
`15000 * 10 ^ 24` issues exactly one claim. -/
theorem C2_gate_not_full_precision_witness :
    claimCount (tick 13784 (okEnv (15 * 10 ^ 27))) = 1 :=
  (C2_gate_not_full_precision 13784 (15 * 10 ^ 27) (okEnv (15 * 10 ^ 27)) ("LP")
    rfl rfl).1.mpr (by decide)

/-- C2 counterexample: the reading one raw unit above the raw threshold
is strictly above it in full-precision integer arithmetic, yet the
binary64 descaling collapses it onto the same value as the threshold
itself and the tick issues no claim: the gating comparison is performed
on a floating-point approximation, not on full-precision integers. -/
theorem C2_counterexample :
    gateSpecExact 13784 (13784 * 10 ^ 24 + 1) = true ∧
    pendingGate 13784 (13784 * 10 ^ 24 + 1) = false ∧
    PQ.Equiv (descaleFloat (13784 * 10 ^ 24 + 1)) (descaleFloat (13784 * 10 ^ 24)) ∧
    claimCount (tick 13784 (okEnv (13784 * 10 ^ 24 + 1))) = 0 := by decide

/-- C4 (corrected scaling): with the configured threshold 13784 M — raw
threshold `13784 * 10 ^ 24` scaled units — a raw reading of
`13000 * 10 ^ 24` issues no claim, while a raw reading of
`14000 * 10 ^ 24` issues exactly one claim and surfaces the receipt's
transaction identifier, rendered in hex, to the log. -/
theorem C4_scenario_descaled :
    claimCount (tick 13784 (okEnv (13 * 10 ^ 27))) = 0 ∧
    claimCount (tick 13784 (okEnv (14 * 10 ^ 27))) = 1 ∧
    LoopEvent.loggedTxHash (hexOfBytes sampleReceipt.transactionHash) ∈
      tick 13784 (okEnv (14 * 10 ^ 27)) := by decide

/-- C4 counterexample: with threshold 13784 (M units), successful ticks
whose raw readings are 13,000,000,000 and 14,000,000,000 both issue no
claim — both descale to about `1.3 * 10 ^ -14` and `1.4 * 10 ^ -14`, far
below the threshold — refuting the claimed scenario in which the reading
14,000,000,000 triggers exactly one claim. -/
theorem C4_counterexample :
    claimCount (tick 13784 (okEnv 14000000000)) = 0 ∧
    claimCount (tick 13784 (okEnv 13000000000)) = 0 := by decide

/-- C5 (amended): per-iteration errors are caught at the loop boundary,
logged, and swallowed — no exception escapes a full iteration, every
iteration ends with the wait message and the fixed 60-unit sleep, every
environment of a run contributes exactly one complete iteration, each
iteration begins with a fresh LP-token read, and an iteration issues a
fresh pending-reward read exactly when its LP-token read succeeds. -/
theorem C5_loop_swallows_errors (reward : ℕ) (env : IterEnv) (envs : List IterEnv) :
    (∀ e : Err, (tickBody reward env).2 = some e →
      LoopEvent.loggedError e ∈ tick reward env) ∧
    (∃ evs, tick reward env = evs ++ [LoopEvent.loggedWait, LoopEvent.slept 60]) ∧
    runLoop reward (env :: envs) = tick reward env ++ runLoop reward envs ∧
    (tick reward env).head? = some LoopEvent.readLpToken ∧
    (∀ lp, env.lpToken = Except.ok lp →
      (tick reward env).countP isReadPending = 1) ∧
    (∀ e, env.lpToken = Except.error e →
      (tick reward env).countP isReadPending = 0) := by
  obtain ⟨lpr, pr, cr⟩ := env
  cases lpr with
  | error e =>
    refine ⟨?_, ⟨_, rfl⟩, rfl, ?_, ?_, ?_⟩
    · intro e' he'
      simp [tickBody] at he'
      simp [tick, tickBody, he']
    · simp [tick, tickBody]
    · intro lp hlp
      cases hlp
    · intro e' he'
      simp [tick, tickBody, List.countP_cons, List.countP_nil, isReadPending]
  | ok lp =>
    cases pr with
    | error e =>
      refine ⟨?_, ⟨_, rfl⟩, rfl, ?_, ?_, ?_⟩
      · intro e' he'
        simp [tickBody] at he'
        simp [tick, tickBody, he']
      · simp [tick, tickBody]
      · intro lp' hlp
        simp [tick, tickBody, List.countP_cons, List.countP_nil, isReadPending]
      · intro e' he'
        cases he'
    | ok p =>
      by_cases hg : pendingGate reward p
      · cases cr with
        | error e =>
          refine ⟨?_, ⟨_, rfl⟩, rfl, ?_, ?_, ?_⟩
          · intro e' he'
            simp [tickBody, hg] at he'
            simp [tick, tickBody, hg, he']
          · simp [tick, tickBody, hg]
          · intro lp' hlp
            simp [tick, tickBody, hg, List.countP_cons, List.countP_nil, isReadPending]
          · intro e' he'
            cases he'
        | ok r =>
          refine ⟨?_, ⟨_, rfl⟩, rfl, ?_, ?_, ?_⟩
          · intro e' he'
            simp [tickBody, hg] at he'
          · simp [tick, tickBody, hg]
          · intro lp' hlp
            simp [tick, tickBody, hg, List.countP_cons, List.countP_nil, isReadPending]
          · intro e' he'
            cases he'
      · refine ⟨?_, ⟨_, rfl⟩, rfl, ?_, ?_, ?_⟩
        · intro e' he'
          simp [tickBody, hg] at he'
        · simp [tick, tickBody, hg]
        · intro lp' hlp
          simp [tick, tickBody, hg, List.countP_cons, List.countP_nil, isReadPending]
        · intro e' he'
          cases he'

/-- C5 witness: a successful iteration issues exactly one fresh
pending-reward read. -/
theorem C5_loop_swallows_errors_witness :
    (tick 13784 (okEnv 0)).countP isReadPending = 1 :=
  (C5_loop_swallows_errors 13784 (okEnv 0) []).2.2.2.2.1 ("LP") rfl

/-- C5 counterexample: a run where the first iteration's pending-reward
read fails — the error is caught, logged, and the iteration still ends
with the sleep — and the second iteration's LP-token read fails: the
second iteration issues no fresh pending-reward read, refuting the
claim's assertion that the next iteration always issues one. -/
theorem C5_counterexample :
    (tickBody 13784 (IterEnv.mk (Except.ok ("LP")) (Except.error Err.remoteReadError)
      (Except.ok sampleReceipt))).2 = some Err.remoteReadError ∧
    LoopEvent.loggedError Err.remoteReadError ∈
      tick 13784 (IterEnv.mk (Except.ok ("LP")) (Except.error Err.remoteReadError)
        (Except.ok sampleReceipt)) ∧
    LoopEvent.slept 60 ∈
      tick 13784 (IterEnv.mk (Except.ok ("LP")) (Except.error Err.remoteReadError)
        (Except.ok sampleReceipt)) ∧
    (tick 13784 (IterEnv.mk (Except.error Err.remoteReadError) (Except.ok 0)
      (Except.ok sampleReceipt))).countP isReadPending = 0 := by decide

end Jager
